import Mathlib

/-!
# Verification of the ohmyfin-node API client

Shallow embedding of the ohmyfin-node SDK (single source file: the
`Ohmyfin` class with constructor, a private `_request` helper, and the four
public operations `track`, `change`, `validate`, `getSSI`).

## Modelling choices

* JavaScript values are modelled by the inductive type `JsValue`.  A missing
  object property reads as `JsValue.undefined`, exactly as in JavaScript.
  Numbers are modelled as integers: every numeric literal appearing in the
  source or in the payloads under scrutiny is integral, and the only numeric
  operation the client performs is the truthiness test (`0` is falsy, any
  other number is truthy); `NaN` and fractional values play no role in the
  code paths modelled here.
* JavaScript truthiness (`!x`, `x || y`) is modelled by `truthy` and `jsOr`.
* The transport (`https.request` / `http.request`) is an opaque capability,
  modelled as a function from the request the client builds (`RequestSpec`:
  method, path, headers, timeout, body) to one of the three event outcomes
  the source wires up: a complete response (status code plus accumulated
  body), a transport-level `error` event, or a `timeout` event.  JSON
  decoding of the response body (`JSON.parse`, a standard-library facility
  the source treats as opaque) is abstracted into the transport outcome: a
  `response` carries `some j` when the body parses to the JSON value `j`
  and `none` when parsing throws.  URL resolution of the fixed path against
  the base address is transport plumbing not touched by any property below
  and is not modelled.
* A call's observable behaviour is an `OpResult`: the settled value of the
  returned promise (`Except Failure JsValue`), the list of requests handed
  to the transport (empty when validation rejects the call before any
  network activity), and whether `req.destroy()` was invoked.
* Thrown `Error` objects are `Failure.plainError` (the constructor and the
  per-operation validations throw plain `Error`s); `OhmyfinError`
  rejections are `Failure.apiError`; an `error` event's argument is
  propagated unwrapped as `Failure.transportFailure`.
* `new Error(message)` coerces its argument with `String(...)`; `jsToString`
  models that coercion (default `toString` behaviour, no user overrides).
* JavaScript property access on `null` or `undefined` throws a TypeError
  (`accessThrows`).  The source's `try` in `_request` wraps the
  classification code, not just `JSON.parse`, so for an error-status body
  parsing to JSON `null` the TypeError from `json.message` is swallowed by
  the catch and the call rejects with
  `OhmyfinError('Invalid JSON response', status)`; `Ohmyfin.request`
  models that branch explicitly.
-/

/-- A JavaScript value, as far as the client manipulates them. -/
inductive JsValue : Type where
  | undefined : JsValue
  | null : JsValue
  | bool : Bool → JsValue
  | num : Int → JsValue
  | str : String → JsValue
  | arr : List JsValue → JsValue
  | obj : List (String × JsValue) → JsValue

/-- JavaScript truthiness: `undefined`, `null`, `false`, `0`, and `""` are
falsy; every other value the model can express is truthy. -/
def truthy : JsValue → Bool
  | .undefined => false
  | .null => false
  | .bool b => b
  | .num i => decide (i ≠ 0)
  | .str s => decide (s ≠ "")
  | .arr _ => true
  | .obj _ => true

/-- JavaScript `a || b`: `a` if truthy, otherwise `b`. -/
def jsOr (a b : JsValue) : JsValue := if truthy a then a else b

/-- Non-throwing property access `v.k`: looks the key up when `v` is an
object (the source only builds objects with distinct keys), `undefined`
on any other non-nullish value.  In JavaScript, property access on `null`
or `undefined` instead throws a TypeError (see `accessThrows`); the one
place where such an access sits inside a catch and changes the observable
rejection — the `json.message` read in `_request` — handles that case
explicitly in `Ohmyfin.request`.  The public operations read `params.x`
outside any catch, where the throw would be just another synchronous local
error; those reads concern only calls violating the documented object
parameter types and are modelled by this total function. -/
def getField : JsValue → String → JsValue
  | .obj fields, k =>
    match fields.find? (fun p => p.1 == k) with
    | some p => p.2
    | none => .undefined
  | _, _ => .undefined

/-- Whether a JavaScript property access `v.k` throws a TypeError: it does
exactly when `v` is `null` or `undefined` (of parsed JSON values, only
`null` is possible). -/
def accessThrows : JsValue → Bool
  | .null => true
  | .undefined => true
  | _ => false

mutual
/-- JavaScript `String(v)` coercion (default `toString` behaviour). -/
def jsToString : JsValue → String
  | .undefined => "undefined"
  | .null => "null"
  | .bool true => "true"
  | .bool false => "false"
  | .num i => toString i
  | .str s => s
  | .arr xs => jsArrToString xs
  | .obj _ => "[object Object]"

/-- `Array.prototype.toString`: elements joined by commas, with `null` and
`undefined` elements rendered as the empty string. -/
def jsArrToString : List JsValue → String
  | [] => ""
  | x :: xs =>
    (match x with
     | .undefined => ""
     | .null => ""
     | v => jsToString v)
    ++ (if xs.isEmpty then "" else "," ++ jsArrToString xs)
end

/-- The `OhmyfinError` class: message (after `Error`'s string coercion),
HTTP-ish status code, and the `errors` constructor argument (the raw
JavaScript value; `undefined` when the two-argument form is used). -/
structure OhmyfinError : Type where
  message : String
  statusCode : Int
  errors : JsValue

/-- How a call can fail: a plain `Error` thrown synchronously by
validation or the constructor, an `OhmyfinError` promise rejection, or an
unwrapped transport error propagated from the request's `error` event. -/
inductive Failure : Type where
  | plainError : String → Failure
  | apiError : OhmyfinError → Failure
  | transportFailure : JsValue → Failure

/-- The request `_request` hands to the transport library. -/
structure RequestSpec : Type where
  method : String
  path : String
  headers : List (String × JsValue)
  timeout : JsValue
  body : JsValue

/-- Outcome of one transport round trip, as delivered to `_request`'s event
handlers.  `response st b` is a complete response with HTTP status `st`
whose accumulated body JSON-parses to `j` when `b = some j` and fails to
parse when `b = none`. -/
inductive TransportResult : Type where
  | response : Int → Option JsValue → TransportResult
  | transportError : JsValue → TransportResult
  | timeout : TransportResult

/-- A (stubbed or real) transport: maps the built request to its outcome. -/
def Transport : Type := RequestSpec → TransportResult

/-- Observable behaviour of one operation call: the settled promise, the
requests issued to the transport, and whether `req.destroy()` ran. -/
structure OpResult : Type where
  outcome : Except Failure JsValue
  requests : List RequestSpec
  destroyed : Bool

/-- The client object: the three fields the constructor stores. -/
structure Ohmyfin : Type where
  apiKey : JsValue
  baseUrl : JsValue
  timeout : JsValue

/-- The `Ohmyfin` constructor:
`if (!config || !config.apiKey) throw new Error(...)`, then stores
`config.apiKey`, `config.baseUrl || 'https://ohmyfin.ai'`, and
`config.timeout || 30000`. -/
def Ohmyfin.make (config : JsValue) : Except Failure Ohmyfin :=
  if !truthy config || !truthy (getField config "apiKey") then
    Except.error (Failure.plainError
      "API key is required. Get your API key at https://ohmyfin.ai")
  else
    Except.ok
      { apiKey := getField config "apiKey"
        baseUrl := jsOr (getField config "baseUrl") (JsValue.str "https://ohmyfin.ai")
        timeout := jsOr (getField config "timeout") (JsValue.num 30000) }

/-- The headers and options `_request` builds for a call. -/
def Ohmyfin.requestSpec (c : Ohmyfin) (method path : String) (data : JsValue) :
    RequestSpec :=
  { method := method
    path := path
    headers := [("KEY", c.apiKey),
                ("Content-Type", JsValue.str "application/json"),
                ("Accept", JsValue.str "application/json"),
                ("User-Agent", JsValue.str "ohmyfin-node/1.0.0")]
    timeout := c.timeout
    body := data }

/-- `json.message || 'API request failed'`, then `Error`'s string coercion. -/
def errMessage (v : JsValue) : String :=
  jsToString (jsOr v (JsValue.str "API request failed"))

/-- The response-classification core of `_request`.  The source's `try`
block wraps both `JSON.parse` and the classification that follows, so its
`catch` swallows more than parse failures.  On a parsed body with status ≥
400: if the parsed value is nullish (for JSON, exactly `null`), evaluating
`json.message` throws a TypeError which the catch turns into
`OhmyfinError('Invalid JSON response', status)`; otherwise reject with
`OhmyfinError(json.message || 'API request failed', status, json.errors)`.
On a parsed body with status < 400, resolve with the parsed value.  On a
parse failure, reject with `OhmyfinError('Invalid JSON response', status)`;
on the `error` event reject with the unwrapped error; on the `timeout`
event call `req.destroy()` and reject with
`OhmyfinError('Request timeout', 408)`. -/
def Ohmyfin.request (c : Ohmyfin) (t : Transport) (method path : String)
    (data : JsValue) : OpResult :=
  let spec := Ohmyfin.requestSpec c method path data
  match t spec with
  | .response st (some json) =>
    if 400 ≤ st then
      if accessThrows json then
        { outcome := Except.error (Failure.apiError
            ⟨"Invalid JSON response", st, JsValue.undefined⟩)
          requests := [spec]
          destroyed := false }
      else
        { outcome := Except.error (Failure.apiError
            ⟨errMessage (getField json "message"), st, getField json "errors"⟩)
          requests := [spec]
          destroyed := false }
    else
      { outcome := Except.ok json
        requests := [spec]
        destroyed := false }
  | .response st none =>
    { outcome := Except.error (Failure.apiError
        ⟨"Invalid JSON response", st, JsValue.undefined⟩)
      requests := [spec]
      destroyed := false }
  | .transportError e =>
    { outcome := Except.error (Failure.transportFailure e)
      requests := [spec]
      destroyed := false }
  | .timeout =>
    { outcome := Except.error (Failure.apiError
        ⟨"Request timeout", 408, JsValue.undefined⟩)
      requests := [spec]
      destroyed := true }

/-- A validation throw: the promise settles to a plain `Error` rejection
with no transport activity. -/
def localThrow (m : String) : OpResult :=
  { outcome := Except.error (Failure.plainError m)
    requests := []
    destroyed := false }

/-- `track`: requires a truthy `uetr` or `ref`, then truthy `amount`,
`date`, `currency`; then `POST /api/track`. -/
def Ohmyfin.track (c : Ohmyfin) (t : Transport) (params : JsValue) : OpResult :=
  if !truthy (getField params "uetr") && !truthy (getField params "ref") then
    localThrow "Either uetr or ref is required"
  else if !truthy (getField params "amount") || !truthy (getField params "date")
      || !truthy (getField params "currency") then
    localThrow "amount, date, and currency are required"
  else
    Ohmyfin.request c t "POST" "/api/track" params

/-- `change`: requires a truthy `uetr` or `ref`, then truthy `status` and
`role`; then `POST /api/change`. -/
def Ohmyfin.change (c : Ohmyfin) (t : Transport) (params : JsValue) : OpResult :=
  if !truthy (getField params "uetr") && !truthy (getField params "ref") then
    localThrow "Either uetr or ref is required"
  else if !truthy (getField params "status") || !truthy (getField params "role") then
    localThrow "status and role are required"
  else
    Ohmyfin.request c t "POST" "/api/change" params

/-- `validate`: requires truthy `beneficiary_bic` and `currency`; then
`POST /api/validate`. -/
def Ohmyfin.validate (c : Ohmyfin) (t : Transport) (params : JsValue) : OpResult :=
  if !truthy (getField params "beneficiary_bic") || !truthy (getField params "currency") then
    localThrow "beneficiary_bic and currency are required"
  else
    Ohmyfin.request c t "POST" "/api/validate" params

/-- `getSSI`: requires truthy `swift` and `currency`; then
`POST /api/getssi`. -/
def Ohmyfin.getSSI (c : Ohmyfin) (t : Transport) (params : JsValue) : OpResult :=
  if !truthy (getField params "swift") || !truthy (getField params "currency") then
    localThrow "swift and currency are required"
  else
    Ohmyfin.request c t "POST" "/api/getssi" params

/-! ## Fixtures: concrete clients, parameters, payloads, stub transports -/

/-- A concretely constructed client (credential "test-key", defaults). -/
def client0 : Ohmyfin :=
  ⟨JsValue.str "test-key", JsValue.str "https://ohmyfin.ai", JsValue.num 30000⟩

/-- Valid `track` parameters (the end-to-end scenario's input). -/
def pTrack : JsValue :=
  JsValue.obj [("uetr", JsValue.str "97ed4827-7b6f-4491-a06f-b548d5a7512d"),
               ("amount", JsValue.num 10000),
               ("date", JsValue.str "2024-01-15"),
               ("currency", JsValue.str "USD")]

/-- Valid `change` parameters omitting amount, date, and currency. -/
def pChange : JsValue :=
  JsValue.obj [("uetr", JsValue.str "97ed4827-7b6f-4491-a06f-b548d5a7512d"),
               ("status", JsValue.str "success"),
               ("role", JsValue.str "correspondent")]

/-- The end-to-end scenario's success payload. -/
def payload9 : JsValue :=
  JsValue.obj [("status", JsValue.str "success"),
               ("lastupdate", JsValue.str "2024-01-15"),
               ("details", JsValue.arr []),
               ("limits", JsValue.obj [("daily", JsValue.num 100),
                                       ("monthly", JsValue.num 1000),
                                       ("annual", JsValue.num 10000)])]

/-- A stub transport on which every request times out. -/
def stubTimeout : Transport := fun _ => TransportResult.timeout

/-- A stub transport answering HTTP 200 with the scenario payload. -/
def t200payload : Transport := fun _ => TransportResult.response 200 (some payload9)

/-- A stub transport answering HTTP 404 with a body carrying a message. -/
def t404msg : Transport :=
  fun _ => TransportResult.response 404
    (some (JsValue.obj [("message", JsValue.str "not found")]))

/-- A stub transport answering HTTP 400 with a present but empty message. -/
def t400empty : Transport :=
  fun _ => TransportResult.response 400
    (some (JsValue.obj [("message", JsValue.str "")]))

/-- A stub transport answering HTTP 200 with a body that is not JSON. -/
def t200bad : Transport := fun _ => TransportResult.response 200 none

/-! ## Validity predicates (the conjunction of each operation's checks) -/

/-- All of `track`'s presence checks pass. -/
def trackValid (p : JsValue) : Bool :=
  (truthy (getField p "uetr") || truthy (getField p "ref")) &&
    truthy (getField p "amount") && truthy (getField p "date") &&
    truthy (getField p "currency")

/-- All of `change`'s presence checks pass. -/
def changeValid (p : JsValue) : Bool :=
  (truthy (getField p "uetr") || truthy (getField p "ref")) &&
    truthy (getField p "status") && truthy (getField p "role")

/-- All of `validate`'s presence checks pass. -/
def validateValid (p : JsValue) : Bool :=
  truthy (getField p "beneficiary_bic") && truthy (getField p "currency")

/-- All of `getSSI`'s presence checks pass. -/
def getSSIValid (p : JsValue) : Bool :=
  truthy (getField p "swift") && truthy (getField p "currency")

/-- The call failed locally: a plain `Error` (not an `OhmyfinError`) and no
request reached the transport. -/
def failsLocally (r : OpResult) : Prop :=
  (∃ m, r.outcome = Except.error (Failure.plainError m)) ∧
  (∀ e, r.outcome ≠ Except.error (Failure.apiError e)) ∧
  r.requests = []

/-! ## Helper lemmas -/

theorem failsLocally_localThrow (m : String) : failsLocally (localThrow m) := by
  refine ⟨⟨m, rfl⟩, ?_, rfl⟩
  intro e h
  simp [localThrow] at h

theorem track_valid_eq (c : Ohmyfin) (t : Transport) (p : JsValue)
    (h : trackValid p = true) :
    Ohmyfin.track c t p = Ohmyfin.request c t "POST" "/api/track" p := by
  unfold trackValid at h
  simp only [Bool.and_eq_true, Bool.or_eq_true] at h
  obtain ⟨⟨⟨hid, ha⟩, hd⟩, hc⟩ := h
  unfold Ohmyfin.track
  rcases hid with h1 | h1 <;> simp [h1, ha, hd, hc]

theorem change_valid_eq (c : Ohmyfin) (t : Transport) (p : JsValue)
    (h : changeValid p = true) :
    Ohmyfin.change c t p = Ohmyfin.request c t "POST" "/api/change" p := by
  unfold changeValid at h
  simp only [Bool.and_eq_true, Bool.or_eq_true] at h
  obtain ⟨⟨hid, hs⟩, hr⟩ := h
  unfold Ohmyfin.change
  rcases hid with h1 | h1 <;> simp [h1, hs, hr]

theorem validate_valid_eq (c : Ohmyfin) (t : Transport) (p : JsValue)
    (h : validateValid p = true) :
    Ohmyfin.validate c t p = Ohmyfin.request c t "POST" "/api/validate" p := by
  unfold validateValid at h
  simp only [Bool.and_eq_true] at h
  unfold Ohmyfin.validate
  simp [h.1, h.2]

theorem getSSI_valid_eq (c : Ohmyfin) (t : Transport) (p : JsValue)
    (h : getSSIValid p = true) :
    Ohmyfin.getSSI c t p = Ohmyfin.request c t "POST" "/api/getssi" p := by
  unfold getSSIValid at h
  simp only [Bool.and_eq_true] at h
  unfold Ohmyfin.getSSI
  simp [h.1, h.2]

theorem request_ok (c : Ohmyfin) (t : Transport) (method path : String)
    (data j : JsValue) (st : Int) (hst : st < 400)
    (ht : t (c.requestSpec method path data) = TransportResult.response st (some j)) :
    Ohmyfin.request c t method path data =
      ⟨Except.ok j, [c.requestSpec method path data], false⟩ := by
  simp only [Ohmyfin.request, ht]
  rw [if_neg (by omega)]

theorem request_err (c : Ohmyfin) (t : Transport) (method path : String)
    (data j : JsValue) (st : Int) (hst : 400 ≤ st)
    (hacc : accessThrows j = false)
    (ht : t (c.requestSpec method path data) = TransportResult.response st (some j)) :
    Ohmyfin.request c t method path data =
      ⟨Except.error (Failure.apiError
          ⟨errMessage (getField j "message"), st, getField j "errors"⟩),
        [c.requestSpec method path data], false⟩ := by
  simp only [Ohmyfin.request, ht]
  rw [if_pos hst, if_neg (by simp [hacc])]

theorem request_err_throws (c : Ohmyfin) (t : Transport) (method path : String)
    (data j : JsValue) (st : Int) (hst : 400 ≤ st)
    (hacc : accessThrows j = true)
    (ht : t (c.requestSpec method path data) = TransportResult.response st (some j)) :
    Ohmyfin.request c t method path data =
      ⟨Except.error (Failure.apiError
          ⟨"Invalid JSON response", st, JsValue.undefined⟩),
        [c.requestSpec method path data], false⟩ := by
  simp only [Ohmyfin.request, ht]
  rw [if_pos hst, if_pos hacc]

theorem request_badjson (c : Ohmyfin) (t : Transport) (method path : String)
    (data : JsValue) (st : Int)
    (ht : t (c.requestSpec method path data) = TransportResult.response st none) :
    Ohmyfin.request c t method path data =
      ⟨Except.error (Failure.apiError ⟨"Invalid JSON response", st, JsValue.undefined⟩),
        [c.requestSpec method path data], false⟩ := by
  simp only [Ohmyfin.request, ht]

theorem request_timedout (c : Ohmyfin) (t : Transport) (method path : String)
    (data : JsValue)
    (ht : t (c.requestSpec method path data) = TransportResult.timeout) :
    Ohmyfin.request c t method path data =
      ⟨Except.error (Failure.apiError ⟨"Request timeout", 408, JsValue.undefined⟩),
        [c.requestSpec method path data], true⟩ := by
  simp only [Ohmyfin.request, ht]

theorem request_requests (c : Ohmyfin) (t : Transport) (method path : String)
    (data : JsValue) :
    (Ohmyfin.request c t method path data).requests =
      [c.requestSpec method path data] := by
  simp only [Ohmyfin.request]
  cases ht : t (c.requestSpec method path data) with
  | response st b =>
    cases b with
    | none => rfl
    | some j =>
      by_cases h : 400 ≤ st
      · by_cases h2 : accessThrows j = true <;> simp [h, h2]
      · simp [h]
  | transportError e => rfl
  | timeout => rfl

theorem track_fails_id (c : Ohmyfin) (t : Transport) (p : JsValue)
    (h : (!truthy (getField p "uetr") && !truthy (getField p "ref")) = true) :
    failsLocally (Ohmyfin.track c t p) := by
  unfold Ohmyfin.track
  rw [if_pos h]
  exact failsLocally_localThrow _

theorem track_fails_components (c : Ohmyfin) (t : Transport) (p : JsValue)
    (h : (!truthy (getField p "amount") || !truthy (getField p "date")
          || !truthy (getField p "currency")) = true) :
    failsLocally (Ohmyfin.track c t p) := by
  unfold Ohmyfin.track
  by_cases h1 : (!truthy (getField p "uetr") && !truthy (getField p "ref")) = true
  · rw [if_pos h1]
    exact failsLocally_localThrow _
  · rw [if_neg h1, if_pos h]
    exact failsLocally_localThrow _

theorem change_fails_id (c : Ohmyfin) (t : Transport) (p : JsValue)
    (h : (!truthy (getField p "uetr") && !truthy (getField p "ref")) = true) :
    failsLocally (Ohmyfin.change c t p) := by
  unfold Ohmyfin.change
  rw [if_pos h]
  exact failsLocally_localThrow _

theorem change_fails_components (c : Ohmyfin) (t : Transport) (p : JsValue)
    (h : (!truthy (getField p "status") || !truthy (getField p "role")) = true) :
    failsLocally (Ohmyfin.change c t p) := by
  unfold Ohmyfin.change
  by_cases h1 : (!truthy (getField p "uetr") && !truthy (getField p "ref")) = true
  · rw [if_pos h1]
    exact failsLocally_localThrow _
  · rw [if_neg h1, if_pos h]
    exact failsLocally_localThrow _

theorem validate_fails_components (c : Ohmyfin) (t : Transport) (p : JsValue)
    (h : (!truthy (getField p "beneficiary_bic") || !truthy (getField p "currency")) = true) :
    failsLocally (Ohmyfin.validate c t p) := by
  unfold Ohmyfin.validate
  rw [if_pos h]
  exact failsLocally_localThrow _

theorem getSSI_fails_components (c : Ohmyfin) (t : Transport) (p : JsValue)
    (h : (!truthy (getField p "swift") || !truthy (getField p "currency")) = true) :
    failsLocally (Ohmyfin.getSSI c t p) := by
  unfold Ohmyfin.getSSI
  rw [if_pos h]
  exact failsLocally_localThrow _

/-- C2: for every operation and every required field of the §4.3 table
(track: an identifier `uetr`/`ref` plus `amount`, `date`, `currency`;
change: an identifier plus `status`, `role`; validate: `beneficiary_bic`,
`currency`; getSSI: `swift`, `currency`), a call omitting that field fails
with a local plain validation error — not an `OhmyfinError` — and hands no
request to the transport. -/
theorem validation_missing_field_local (c : Ohmyfin) (t : Transport) (p : JsValue) :
    (getField p "uetr" = JsValue.undefined ∧ getField p "ref" = JsValue.undefined →
      failsLocally (Ohmyfin.track c t p) ∧ failsLocally (Ohmyfin.change c t p)) ∧
    (getField p "amount" = JsValue.undefined → failsLocally (Ohmyfin.track c t p)) ∧
    (getField p "date" = JsValue.undefined → failsLocally (Ohmyfin.track c t p)) ∧
    (getField p "currency" = JsValue.undefined → failsLocally (Ohmyfin.track c t p)) ∧
    (getField p "status" = JsValue.undefined → failsLocally (Ohmyfin.change c t p)) ∧
    (getField p "role" = JsValue.undefined → failsLocally (Ohmyfin.change c t p)) ∧
    (getField p "beneficiary_bic" = JsValue.undefined →
      failsLocally (Ohmyfin.validate c t p)) ∧
    (getField p "currency" = JsValue.undefined → failsLocally (Ohmyfin.validate c t p)) ∧
    (getField p "swift" = JsValue.undefined → failsLocally (Ohmyfin.getSSI c t p)) ∧
    (getField p "currency" = JsValue.undefined → failsLocally (Ohmyfin.getSSI c t p)) := by
  refine ⟨?_, ?_, ?_, ?_, ?_, ?_, ?_, ?_, ?_, ?_⟩
  · rintro ⟨h1, h2⟩
    exact ⟨track_fails_id c t p (by rw [h1, h2]; rfl),
           change_fails_id c t p (by rw [h1, h2]; rfl)⟩
  · intro h
    exact track_fails_components c t p (by rw [h]; rfl)
  · intro h
    apply track_fails_components c t p
    rw [h]
    simp [truthy]
  · intro h
    apply track_fails_components c t p
    rw [h]
    simp [truthy]
  · intro h
    exact change_fails_components c t p (by rw [h]; rfl)
  · intro h
    apply change_fails_components c t p
    rw [h]
    simp [truthy]
  · intro h
    exact validate_fails_components c t p (by rw [h]; rfl)
  · intro h
    apply validate_fails_components c t p
    rw [h]
    simp [truthy]
  · intro h
    exact getSSI_fails_components c t p (by rw [h]; rfl)
  · intro h
    apply getSSI_fails_components c t p
    rw [h]
    simp [truthy]

/-- Witness for C2: with every field omitted, all four operations fail
locally on a stub transport. -/
theorem validation_missing_field_local_witness :
    failsLocally (Ohmyfin.track client0 stubTimeout (JsValue.obj [])) ∧
    failsLocally (Ohmyfin.change client0 stubTimeout (JsValue.obj [])) ∧
    failsLocally (Ohmyfin.validate client0 stubTimeout (JsValue.obj [])) ∧
    failsLocally (Ohmyfin.getSSI client0 stubTimeout (JsValue.obj [])) := by
  have h := validation_missing_field_local client0 stubTimeout (JsValue.obj [])
  exact ⟨(h.1 ⟨rfl, rfl⟩).1, (h.1 ⟨rfl, rfl⟩).2,
         h.2.2.2.2.2.2.1 rfl, h.2.2.2.2.2.2.2.2.1 rfl⟩

/-- C3: for every operation, a transport response whose body parses as JSON
with HTTP status < 400 resolves the operation with exactly the parsed JSON
value, whatever its shape. -/
theorem success_payload_passthrough (c : Ohmyfin) (t : Transport) (p j : JsValue)
    (st : Int) (hst : st < 400) :
    (trackValid p = true →
      t (c.requestSpec "POST" "/api/track" p) = TransportResult.response st (some j) →
      (Ohmyfin.track c t p).outcome = Except.ok j) ∧
    (changeValid p = true →
      t (c.requestSpec "POST" "/api/change" p) = TransportResult.response st (some j) →
      (Ohmyfin.change c t p).outcome = Except.ok j) ∧
    (validateValid p = true →
      t (c.requestSpec "POST" "/api/validate" p) = TransportResult.response st (some j) →
      (Ohmyfin.validate c t p).outcome = Except.ok j) ∧
    (getSSIValid p = true →
      t (c.requestSpec "POST" "/api/getssi" p) = TransportResult.response st (some j) →
      (Ohmyfin.getSSI c t p).outcome = Except.ok j) := by
  refine ⟨fun hv ht => ?_, fun hv ht => ?_, fun hv ht => ?_, fun hv ht => ?_⟩
  · rw [track_valid_eq c t p hv, request_ok c t "POST" "/api/track" p j st hst ht]
  · rw [change_valid_eq c t p hv, request_ok c t "POST" "/api/change" p j st hst ht]
  · rw [validate_valid_eq c t p hv, request_ok c t "POST" "/api/validate" p j st hst ht]
  · rw [getSSI_valid_eq c t p hv, request_ok c t "POST" "/api/getssi" p j st hst ht]

/-- Witness for C3: the end-to-end scenario, HTTP 200 with the §8.9 payload. -/
theorem success_payload_passthrough_witness :
    trackValid pTrack = true ∧
    (Ohmyfin.track client0 t200payload pTrack).outcome = Except.ok payload9 :=
  ⟨rfl, (success_payload_passthrough client0 t200payload pTrack payload9 200
      (by omega)).1 rfl rfl⟩

/-- C4: for every operation, a transport response whose body fails to parse
as JSON rejects with `OhmyfinError("Invalid JSON response", status)` for
every HTTP status, including statuses below 400. -/
theorem invalid_json_apiError (c : Ohmyfin) (t : Transport) (p : JsValue) (st : Int) :
    (trackValid p = true →
      t (c.requestSpec "POST" "/api/track" p) = TransportResult.response st none →
      (Ohmyfin.track c t p).outcome = Except.error (Failure.apiError
        ⟨"Invalid JSON response", st, JsValue.undefined⟩)) ∧
    (changeValid p = true →
      t (c.requestSpec "POST" "/api/change" p) = TransportResult.response st none →
      (Ohmyfin.change c t p).outcome = Except.error (Failure.apiError
        ⟨"Invalid JSON response", st, JsValue.undefined⟩)) ∧
    (validateValid p = true →
      t (c.requestSpec "POST" "/api/validate" p) = TransportResult.response st none →
      (Ohmyfin.validate c t p).outcome = Except.error (Failure.apiError
        ⟨"Invalid JSON response", st, JsValue.undefined⟩)) ∧
    (getSSIValid p = true →
      t (c.requestSpec "POST" "/api/getssi" p) = TransportResult.response st none →
      (Ohmyfin.getSSI c t p).outcome = Except.error (Failure.apiError
        ⟨"Invalid JSON response", st, JsValue.undefined⟩)) := by
  refine ⟨fun hv ht => ?_, fun hv ht => ?_, fun hv ht => ?_, fun hv ht => ?_⟩
  · rw [track_valid_eq c t p hv, request_badjson c t "POST" "/api/track" p st ht]
  · rw [change_valid_eq c t p hv, request_badjson c t "POST" "/api/change" p st ht]
  · rw [validate_valid_eq c t p hv, request_badjson c t "POST" "/api/validate" p st ht]
  · rw [getSSI_valid_eq c t p hv, request_badjson c t "POST" "/api/getssi" p st ht]

/-- Witness for C4: HTTP 200 with a non-JSON body yields
`OhmyfinError("Invalid JSON response", 200)`. -/
theorem invalid_json_apiError_witness :
    (Ohmyfin.track client0 t200bad pTrack).outcome = Except.error (Failure.apiError
      ⟨"Invalid JSON response", 200, JsValue.undefined⟩) :=
  (invalid_json_apiError client0 t200bad pTrack 200).1 rfl rfl

/-- C8: for every operation, when the transport's timeout event fires the
in-flight request is destroyed and the call rejects with
`OhmyfinError("Request timeout", 408)`. -/
theorem timeout_apiError_408 (c : Ohmyfin) (t : Transport) (p : JsValue) :
    (trackValid p = true →
      t (c.requestSpec "POST" "/api/track" p) = TransportResult.timeout →
      Ohmyfin.track c t p =
        ⟨Except.error (Failure.apiError ⟨"Request timeout", 408, JsValue.undefined⟩),
          [c.requestSpec "POST" "/api/track" p], true⟩) ∧
    (changeValid p = true →
      t (c.requestSpec "POST" "/api/change" p) = TransportResult.timeout →
      Ohmyfin.change c t p =
        ⟨Except.error (Failure.apiError ⟨"Request timeout", 408, JsValue.undefined⟩),
          [c.requestSpec "POST" "/api/change" p], true⟩) ∧
    (validateValid p = true →
      t (c.requestSpec "POST" "/api/validate" p) = TransportResult.timeout →
      Ohmyfin.validate c t p =
        ⟨Except.error (Failure.apiError ⟨"Request timeout", 408, JsValue.undefined⟩),
          [c.requestSpec "POST" "/api/validate" p], true⟩) ∧
    (getSSIValid p = true →
      t (c.requestSpec "POST" "/api/getssi" p) = TransportResult.timeout →
      Ohmyfin.getSSI c t p =
        ⟨Except.error (Failure.apiError ⟨"Request timeout", 408, JsValue.undefined⟩),
          [c.requestSpec "POST" "/api/getssi" p], true⟩) := by
  refine ⟨fun hv ht => ?_, fun hv ht => ?_, fun hv ht => ?_, fun hv ht => ?_⟩
  · rw [track_valid_eq c t p hv, request_timedout c t "POST" "/api/track" p ht]
  · rw [change_valid_eq c t p hv, request_timedout c t "POST" "/api/change" p ht]
  · rw [validate_valid_eq c t p hv, request_timedout c t "POST" "/api/validate" p ht]
  · rw [getSSI_valid_eq c t p hv, request_timedout c t "POST" "/api/getssi" p ht]

/-- Witness for C8: a timing-out stub makes `track` reject with the 408
error and destroy the request. -/
theorem timeout_apiError_408_witness :
    Ohmyfin.track client0 stubTimeout pTrack =
      ⟨Except.error (Failure.apiError ⟨"Request timeout", 408, JsValue.undefined⟩),
        [client0.requestSpec "POST" "/api/track" pTrack], true⟩ :=
  (timeout_apiError_408 client0 stubTimeout pTrack).1 rfl rfl

theorem errMessage_eq (v : JsValue) :
    errMessage v = if truthy v then jsToString v else "API request failed" := by
  unfold errMessage jsOr
  by_cases h : truthy v = true
  · rw [if_pos h, if_pos h]
  · rw [if_neg h, if_neg h]
    rfl

/-- C1 (amended): for every operation, a parsed body with HTTP status ≥ 400
rejects with an `OhmyfinError` as follows.  When property access on the
parsed value does not throw (every JSON value except `null`): statusCode is
the HTTP status, the message is the string coercion of the payload's
`message` field when that field is truthy (for a string field: present and
non-empty) and "API request failed" otherwise, and the errors field is the
payload's `errors` field (so `undefined` exactly when that field is
absent).  When the body parses to JSON `null`, reading `json.message`
throws a TypeError which the source's catch swallows, and the rejection is
`OhmyfinError("Invalid JSON response", status)` instead. -/
theorem apiError_classification (c : Ohmyfin) (t : Transport) (p j : JsValue)
    (st : Int) (hst : 400 ≤ st) :
    (accessThrows j = false →
      (trackValid p = true →
        t (c.requestSpec "POST" "/api/track" p) = TransportResult.response st (some j) →
        (Ohmyfin.track c t p).outcome = Except.error (Failure.apiError
          ⟨if truthy (getField j "message") then jsToString (getField j "message")
              else "API request failed", st, getField j "errors"⟩)) ∧
      (changeValid p = true →
        t (c.requestSpec "POST" "/api/change" p) = TransportResult.response st (some j) →
        (Ohmyfin.change c t p).outcome = Except.error (Failure.apiError
          ⟨if truthy (getField j "message") then jsToString (getField j "message")
              else "API request failed", st, getField j "errors"⟩)) ∧
      (validateValid p = true →
        t (c.requestSpec "POST" "/api/validate" p) = TransportResult.response st (some j) →
        (Ohmyfin.validate c t p).outcome = Except.error (Failure.apiError
          ⟨if truthy (getField j "message") then jsToString (getField j "message")
              else "API request failed", st, getField j "errors"⟩)) ∧
      (getSSIValid p = true →
        t (c.requestSpec "POST" "/api/getssi" p) = TransportResult.response st (some j) →
        (Ohmyfin.getSSI c t p).outcome = Except.error (Failure.apiError
          ⟨if truthy (getField j "message") then jsToString (getField j "message")
              else "API request failed", st, getField j "errors"⟩))) ∧
    (j = JsValue.null →
      (trackValid p = true →
        t (c.requestSpec "POST" "/api/track" p) = TransportResult.response st (some j) →
        (Ohmyfin.track c t p).outcome = Except.error (Failure.apiError
          ⟨"Invalid JSON response", st, JsValue.undefined⟩)) ∧
      (changeValid p = true →
        t (c.requestSpec "POST" "/api/change" p) = TransportResult.response st (some j) →
        (Ohmyfin.change c t p).outcome = Except.error (Failure.apiError
          ⟨"Invalid JSON response", st, JsValue.undefined⟩)) ∧
      (validateValid p = true →
        t (c.requestSpec "POST" "/api/validate" p) = TransportResult.response st (some j) →
        (Ohmyfin.validate c t p).outcome = Except.error (Failure.apiError
          ⟨"Invalid JSON response", st, JsValue.undefined⟩)) ∧
      (getSSIValid p = true →
        t (c.requestSpec "POST" "/api/getssi" p) = TransportResult.response st (some j) →
        (Ohmyfin.getSSI c t p).outcome = Except.error (Failure.apiError
          ⟨"Invalid JSON response", st, JsValue.undefined⟩))) := by
  constructor
  · intro hacc
    refine ⟨fun hv ht => ?_, fun hv ht => ?_, fun hv ht => ?_, fun hv ht => ?_⟩
    · rw [track_valid_eq c t p hv,
        request_err c t "POST" "/api/track" p j st hst hacc ht]
      simp [errMessage_eq]
    · rw [change_valid_eq c t p hv,
        request_err c t "POST" "/api/change" p j st hst hacc ht]
      simp [errMessage_eq]
    · rw [validate_valid_eq c t p hv,
        request_err c t "POST" "/api/validate" p j st hst hacc ht]
      simp [errMessage_eq]
    · rw [getSSI_valid_eq c t p hv,
        request_err c t "POST" "/api/getssi" p j st hst hacc ht]
      simp [errMessage_eq]
  · intro hj
    subst hj
    refine ⟨fun hv ht => ?_, fun hv ht => ?_, fun hv ht => ?_, fun hv ht => ?_⟩
    · rw [track_valid_eq c t p hv,
        request_err_throws c t "POST" "/api/track" p JsValue.null st hst rfl ht]
    · rw [change_valid_eq c t p hv,
        request_err_throws c t "POST" "/api/change" p JsValue.null st hst rfl ht]
    · rw [validate_valid_eq c t p hv,
        request_err_throws c t "POST" "/api/validate" p JsValue.null st hst rfl ht]
    · rw [getSSI_valid_eq c t p hv,
        request_err_throws c t "POST" "/api/getssi" p JsValue.null st hst rfl ht]

/-- A stub transport answering HTTP 500 with the body `null` (valid JSON
whose parse yields `null`). -/
def t500null : Transport :=
  fun _ => TransportResult.response 500 (some JsValue.null)

/-- Witness for C1's amended theorem: HTTP 404 with a body carrying
`message = "not found"` surfaces that message and status, and HTTP 500
with the JSON body `null` rejects as an invalid JSON response. -/
theorem apiError_classification_witness :
    (Ohmyfin.track client0 t404msg pTrack).outcome =
      Except.error (Failure.apiError ⟨"not found", 404, JsValue.undefined⟩) ∧
    (Ohmyfin.track client0 t500null pTrack).outcome =
      Except.error (Failure.apiError ⟨"Invalid JSON response", 500, JsValue.undefined⟩) :=
  ⟨((apiError_classification client0 t404msg pTrack
      (JsValue.obj [("message", JsValue.str "not found")]) 404 (by omega)).1
      rfl).1 rfl rfl,
   ((apiError_classification client0 t500null pTrack
      JsValue.null 500 (by omega)).2 rfl).1 rfl rfl⟩

/-- Counterexample to C1 as stated: a payload whose `message` field is
present but empty is reported with the default message "API request failed",
not with the payload's (empty) `message` field. -/
theorem apiError_message_empty_counterexample :
    getField (JsValue.obj [("message", JsValue.str "")]) "message" = JsValue.str "" ∧
    (Ohmyfin.track client0 t400empty pTrack).outcome =
      Except.error (Failure.apiError ⟨"API request failed", 400, JsValue.undefined⟩) ∧
    "API request failed" ≠ "" :=
  ⟨rfl, rfl, by decide⟩

theorem request_not_plainError (c : Ohmyfin) (t : Transport) (method path : String)
    (data : JsValue) (m : String) :
    (Ohmyfin.request c t method path data).outcome ≠
      Except.error (Failure.plainError m) := by
  simp only [Ohmyfin.request]
  cases ht : t (c.requestSpec method path data) with
  | response st b =>
    cases b with
    | none => simp
    | some j =>
      by_cases h : 400 ≤ st
      · by_cases h2 : accessThrows j = true <;> simp [h, h2]
      · simp [h]
  | transportError e => simp
  | timeout => simp

/-- C5 (amended): track's identifier validation fails exactly when both
`uetr` and `ref` are falsy — absent, or present with a falsy value such as
the empty string — not merely when both are absent; in particular a call
supplying a non-empty `uetr` alone, a non-empty `ref` alone, or both passes
the identifier check, and a fully valid call dispatches the request. -/
theorem track_identifier_falsy_iff (c : Ohmyfin) (t : Transport) (p : JsValue) :
    ((Ohmyfin.track c t p).outcome =
        Except.error (Failure.plainError "Either uetr or ref is required") ↔
      truthy (getField p "uetr") = false ∧ truthy (getField p "ref") = false) ∧
    (trackValid p = true →
      (Ohmyfin.track c t p).requests = [c.requestSpec "POST" "/api/track" p]) := by
  constructor
  · constructor
    · intro h
      by_cases h1 : (!truthy (getField p "uetr") && !truthy (getField p "ref")) = true
      · simpa [Bool.and_eq_true, Bool.not_eq_true'] using h1
      · exfalso
        unfold Ohmyfin.track at h
        rw [if_neg h1] at h
        by_cases h2 : (!truthy (getField p "amount") || !truthy (getField p "date")
            || !truthy (getField p "currency")) = true
        · rw [if_pos h2] at h
          simp only [localThrow, Except.error.injEq, Failure.plainError.injEq] at h
          exact absurd h (by decide)
        · rw [if_neg h2] at h
          exact request_not_plainError c t "POST" "/api/track" p _ h
    · rintro ⟨hu, hr⟩
      unfold Ohmyfin.track
      rw [if_pos (by rw [hu, hr]; rfl)]
      rfl
  · intro hv
    rw [track_valid_eq c t p hv]
    exact request_requests c t "POST" "/api/track" p

/-- Witness for C5's amended theorem: with both identifiers absent the
identifier error is raised, and a valid call issues exactly one request. -/
theorem track_identifier_falsy_iff_witness :
    (Ohmyfin.track client0 stubTimeout (JsValue.obj [])).outcome =
      Except.error (Failure.plainError "Either uetr or ref is required") ∧
    (Ohmyfin.track client0 t200payload pTrack).requests =
      [client0.requestSpec "POST" "/api/track" pTrack] :=
  ⟨(track_identifier_falsy_iff client0 stubTimeout (JsValue.obj [])).1.mpr ⟨rfl, rfl⟩,
   (track_identifier_falsy_iff client0 t200payload pTrack).2 rfl⟩

/-- Track parameters supplying `uetr` present but equal to the empty
string, alongside the other required fields. -/
def pTrackEmptyUetr : JsValue :=
  JsValue.obj [("uetr", JsValue.str ""),
               ("amount", JsValue.num 10000),
               ("date", JsValue.str "2024-01-15"),
               ("currency", JsValue.str "USD")]

/-- Counterexample to C5 as stated: `uetr` is supplied (present, an empty
string, hence not absent) and `ref` is absent, yet the identifier
validation fails — so validation does not fail only when both identifiers
are absent. -/
theorem track_empty_uetr_counterexample :
    getField pTrackEmptyUetr "uetr" = JsValue.str "" ∧
    getField pTrackEmptyUetr "uetr" ≠ JsValue.undefined ∧
    Ohmyfin.track client0 stubTimeout pTrackEmptyUetr =
      { outcome := Except.error (Failure.plainError "Either uetr or ref is required")
        requests := []
        destroyed := false } :=
  ⟨rfl, fun h => JsValue.noConfusion h, rfl⟩

/-- C6: change validates only the identifier, status, and role: a call
supplying a truthy identifier, status, and role while omitting amount,
date, and currency passes validation and dispatches the network request. -/
theorem change_requires_only_status_role (c : Ohmyfin) (t : Transport) (p : JsValue)
    (_hamount : getField p "amount" = JsValue.undefined)
    (_hdate : getField p "date" = JsValue.undefined)
    (_hcurrency : getField p "currency" = JsValue.undefined)
    (hid : truthy (getField p "uetr") = true ∨ truthy (getField p "ref") = true)
    (hstatus : truthy (getField p "status") = true)
    (hrole : truthy (getField p "role") = true) :
    Ohmyfin.change c t p = Ohmyfin.request c t "POST" "/api/change" p ∧
    (Ohmyfin.change c t p).requests = [c.requestSpec "POST" "/api/change" p] := by
  have hv : changeValid p = true := by
    unfold changeValid
    rcases hid with h | h <;> simp [h, hstatus, hrole]
  refine ⟨change_valid_eq c t p hv, ?_⟩
  rw [change_valid_eq c t p hv]
  exact request_requests c t "POST" "/api/change" p

/-- Witness for C6: a change call with identifier, status, role and no
amount, date, or currency issues exactly one request. -/
theorem change_requires_only_status_role_witness :
    (Ohmyfin.change client0 t200payload pChange).requests =
      [client0.requestSpec "POST" "/api/change" pChange] :=
  (change_requires_only_status_role client0 t200payload pChange
      rfl rfl rfl (Or.inl rfl) rfl rfl).2

/-- C9 (amended): track checks `amount` for truthiness, not for a value
range: any nonzero numeric amount — negative amounts included, so
`amount > 0` is not enforced — passes validation and dispatches, but the
number 0 is falsy and is rejected by the presence check. -/
theorem track_amount_nonzero_dispatches (c : Ohmyfin) (t : Transport) (p : JsValue)
    (a : Int) (ha : getField p "amount" = JsValue.num a) (hnz : a ≠ 0)
    (hid : truthy (getField p "uetr") = true ∨ truthy (getField p "ref") = true)
    (hdate : truthy (getField p "date") = true)
    (hcurrency : truthy (getField p "currency") = true) :
    Ohmyfin.track c t p = Ohmyfin.request c t "POST" "/api/track" p ∧
    (Ohmyfin.track c t p).requests = [c.requestSpec "POST" "/api/track" p] := by
  have hv : trackValid p = true := by
    unfold trackValid
    rw [ha]
    have hta : truthy (JsValue.num a) = true := by simp [truthy, hnz]
    rcases hid with h | h <;> simp [h, hdate, hcurrency, hta]
  refine ⟨track_valid_eq c t p hv, ?_⟩
  rw [track_valid_eq c t p hv]
  exact request_requests c t "POST" "/api/track" p

/-- Track parameters with a negative amount. -/
def pTrackNeg : JsValue :=
  JsValue.obj [("uetr", JsValue.str "97ed4827-7b6f-4491-a06f-b548d5a7512d"),
               ("amount", JsValue.num (-5)),
               ("date", JsValue.str "2024-01-15"),
               ("currency", JsValue.str "USD")]

/-- Track parameters with amount equal to the number 0. -/
def pTrackZero : JsValue :=
  JsValue.obj [("uetr", JsValue.str "97ed4827-7b6f-4491-a06f-b548d5a7512d"),
               ("amount", JsValue.num 0),
               ("date", JsValue.str "2024-01-15"),
               ("currency", JsValue.str "USD")]

/-- Counterexample to C9 as stated: supplying `amount: 0` with an
identifier, date, and currency fails local validation and issues no
request, so a call with amount 0 does not pass validation. -/
theorem track_amount_zero_counterexample :
    getField pTrackZero "amount" = JsValue.num 0 ∧
    Ohmyfin.track client0 t200payload pTrackZero =
      { outcome := Except.error (Failure.plainError
          "amount, date, and currency are required")
        requests := []
        destroyed := false } :=
  ⟨rfl, rfl⟩

/-- Witness for C9's amended theorem: a negative amount (a nonzero number)
dispatches the request. -/
theorem track_amount_nonzero_dispatches_witness :
    getField pTrackNeg "amount" = JsValue.num (-5) ∧
    (Ohmyfin.track client0 t200payload pTrackNeg).requests =
      [client0.requestSpec "POST" "/api/track" pTrackNeg] :=
  ⟨rfl, (track_amount_nonzero_dispatches client0 t200payload pTrackNeg (-5) rfl
      (by decide) (Or.inl rfl) rfl rfl).2⟩

theorem getField_ne_undefined_truthy (v : JsValue) (k : String)
    (h : getField v k ≠ JsValue.undefined) : truthy v = true := by
  cases v <;> first | rfl | (exfalso; exact h rfl)

/-- C7: construction fails (with the plain configuration error) exactly
when the credential is missing or the empty string, whatever the other
configuration fields hold — stated for configurations whose `apiKey`
field, if supplied, is a string, per the documented `ClientConfig` shape;
on success the given credential is stored and the defaults
"https://ohmyfin.ai" and 30000 are applied to absent `baseUrl` and
`timeout` fields.  Construction is a pure function of the configuration:
it touches no transport and has no effect beyond the returned client. -/
theorem constructor_credential_iff (config : JsValue)
    (htype : getField config "apiKey" = JsValue.undefined ∨
      ∃ s, getField config "apiKey" = JsValue.str s) :
    ((∃ m, Ohmyfin.make config = Except.error (Failure.plainError m)) ↔
      (getField config "apiKey" = JsValue.undefined ∨
        getField config "apiKey" = JsValue.str "")) ∧
    (∀ cl, Ohmyfin.make config = Except.ok cl →
      cl.apiKey = getField config "apiKey" ∧
      (getField config "baseUrl" = JsValue.undefined →
        cl.baseUrl = JsValue.str "https://ohmyfin.ai") ∧
      (getField config "timeout" = JsValue.undefined →
        cl.timeout = JsValue.num 30000)) := by
  constructor
  · rcases htype with h | ⟨s, h⟩
    · have hmk : Ohmyfin.make config = Except.error (Failure.plainError
          "API key is required. Get your API key at https://ohmyfin.ai") := by
        unfold Ohmyfin.make
        rw [if_pos (by rw [h]; simp [truthy])]
      exact ⟨fun _ => Or.inl h, fun _ => ⟨_, hmk⟩⟩
    · by_cases hs : s = ""
      · subst hs
        have hmk : Ohmyfin.make config = Except.error (Failure.plainError
            "API key is required. Get your API key at https://ohmyfin.ai") := by
          unfold Ohmyfin.make
          rw [if_pos (by rw [h]; simp [truthy])]
        exact ⟨fun _ => Or.inr h, fun _ => ⟨_, hmk⟩⟩
      · have hck : truthy (getField config "apiKey") = true := by
          rw [h]; simp [truthy, hs]
        have hcfg : truthy config = true :=
          getField_ne_undefined_truthy config "apiKey"
            (fun he => by rw [h] at he; exact JsValue.noConfusion he)
        have hcond : (!truthy config || !truthy (getField config "apiKey")) = false := by
          rw [hck, hcfg]
          rfl
        constructor
        · rintro ⟨m, hm⟩
          unfold Ohmyfin.make at hm
          rw [hcond] at hm
          simp at hm
        · rintro (h1 | h2)
          · rw [h] at h1
            exact absurd h1 (fun he => JsValue.noConfusion he)
          · rw [h] at h2
            exact absurd (JsValue.str.inj h2) hs
  · intro cl hcl
    unfold Ohmyfin.make at hcl
    by_cases hc : (!truthy config || !truthy (getField config "apiKey")) = true
    · rw [if_pos hc] at hcl
      cases hcl
    · rw [if_neg hc] at hcl
      cases hcl
      refine ⟨rfl, ?_, ?_⟩
      · intro hb
        simp [jsOr, hb, truthy]
      · intro htm
        simp [jsOr, htm, truthy]

/-- Config supplying only a credential. -/
def cfgKeyOnly : JsValue := JsValue.obj [("apiKey", JsValue.str "test-key")]

/-- Witness for C7: a `null` config fails; a credential-only config yields
a client with the default base address and timeout. -/
theorem constructor_credential_iff_witness :
    (∃ m, Ohmyfin.make JsValue.null = Except.error (Failure.plainError m)) ∧
    Ohmyfin.make cfgKeyOnly = Except.ok client0 ∧
    client0.baseUrl = JsValue.str "https://ohmyfin.ai" ∧
    client0.timeout = JsValue.num 30000 :=
  ⟨(constructor_credential_iff JsValue.null (Or.inl rfl)).1.mpr (Or.inl rfl),
   rfl,
   ((constructor_credential_iff cfgKeyOnly
       (Or.inr ⟨"test-key", rfl⟩)).2 client0 rfl).2.1 rfl,
   ((constructor_credential_iff cfgKeyOnly
       (Or.inr ⟨"test-key", rfl⟩)).2 client0 rfl).2.2 rfl⟩

/-- C10: on a successful construction, a falsy `baseUrl` or `timeout`
value — absent, or present but falsy like `""` or `0` — is silently
replaced by the default ("https://ohmyfin.ai" / 30000); in particular a
zero timeout cannot be configured. -/
theorem constructor_defaults_on_falsy (config : JsValue) (cl : Ohmyfin)
    (hok : Ohmyfin.make config = Except.ok cl) :
    (truthy (getField config "baseUrl") = false →
      cl.baseUrl = JsValue.str "https://ohmyfin.ai") ∧
    (truthy (getField config "timeout") = false →
      cl.timeout = JsValue.num 30000) := by
  unfold Ohmyfin.make at hok
  by_cases hc : (!truthy config || !truthy (getField config "apiKey")) = true
  · rw [if_pos hc] at hok
    cases hok
  · rw [if_neg hc] at hok
    cases hok
    constructor
    · intro hb
      simp [jsOr, hb]
    · intro htm
      simp [jsOr, htm]

/-- Config with a credential plus present-but-falsy baseUrl and timeout. -/
def cfgFalsy : JsValue :=
  JsValue.obj [("apiKey", JsValue.str "test-key"),
               ("baseUrl", JsValue.str ""),
               ("timeout", JsValue.num 0)]

/-- Witness for C10: `baseUrl: ""` and `timeout: 0` are supplied yet the
constructed client carries the defaults. -/
theorem constructor_defaults_on_falsy_witness :
    getField cfgFalsy "baseUrl" = JsValue.str "" ∧
    getField cfgFalsy "timeout" = JsValue.num 0 ∧
    client0.baseUrl = JsValue.str "https://ohmyfin.ai" ∧
    client0.timeout = JsValue.num 30000 :=
  ⟨rfl, rfl,
   (constructor_defaults_on_falsy cfgFalsy client0 rfl).1 rfl,
   (constructor_defaults_on_falsy cfgFalsy client0 rfl).2 rfl⟩
